import Mathlib

/-!
Verification of the ride-hailing matching-and-dispatch core of the
Backend-Cabs-Booking-System repository, together with the credential-handling
code of its user/captain modules.

The repository ships the HTTP tests for the ride lifecycle
(tests/ride.test.js) and the infrastructure configuration, but the ride
model, dispatch coordinator, geo index and driver availability registry
themselves are not part of the checked-in sources.  Those components are
modelled here from the design document, as marked on each definition.
The user/captain authentication code (user model, captain model, user
service, user controller, captain controller) is present in the sources and
is embedded directly.
-/

/-! ## Ride state machine: data model -/

/-- Modelled from the spec: ride lifecycle states of the RideStateMachine,
states pending, accepted, ongoing, completed, cancelled. -/
inductive RideStatus
  | pending
  | accepted
  | ongoing
  | completed
  | cancelled
deriving DecidableEq, Repr

/-- Modelled from the spec: the error taxonomy of section 7. -/
inductive RideError
  | InvalidLocation
  | InvalidTransition (current : RideStatus) (attempted : RideStatus)
  | AlreadyAssigned
  | DriverUnavailable
  | NotAssignedDriver
  | OtpMismatch
  | NoDriverAvailable
  | NotFound
deriving DecidableEq, Repr

/-- A geographic coordinate.  Latitude and longitude are rationals so that
concrete inputs such as (40.7306, -73.9352) evaluate exactly. -/
structure Coord where
  lat : Rat
  lng : Rat
deriving DecidableEq, Repr

/-- Well-formedness of a coordinate: latitude in [-90, 90] and longitude in
[-180, 180], as the spec requires for requestRide validation. -/
def validCoord (c : Coord) : Bool :=
  decide (-90 ≤ c.lat) && decide (c.lat ≤ 90) &&
  decide (-180 ≤ c.lng) && decide (c.lng ≤ 180)

/-- Vehicle classes, named vehicleType as in the ride tests
(car, motorcycle, auto as in the captain model enum). -/
inductive VehicleType
  | car
  | motorcycle
  | auto
deriving DecidableEq, Repr

/-- Modelled from the spec: the Ride record of section 3 (rider reference,
nullable driver reference, pickup, destination, vehicle class, status, fare
estimate, OTP).  Timestamps are omitted: no claim mentions them. -/
structure Ride where
  rider : Nat
  driver : Option Nat
  pickup : Coord
  destination : Coord
  vehicleType : VehicleType
  status : RideStatus
  fare : Rat
  otp : Nat
deriving DecidableEq, Repr

/-- Driver availability flag of a DriverAvailabilityRecord. -/
inductive Availability
  | available
  | busy
  | offline
deriving DecidableEq, Repr

/-- Modelled from the spec: DriverAvailabilityRecord of section 3 (location,
availability flag, vehicle class, last-heartbeat timestamp). -/
structure DriverRec where
  loc : Coord
  avail : Availability
  vehicleType : VehicleType
  heartbeat : Nat
deriving DecidableEq, Repr

/-- The driver availability registry: an association list from driver ID to
record (the document store of section 6, keyed by driver ID). -/
abbrev Registry := List (Nat × DriverRec)

/-- Look up a driver record by ID (first matching entry). -/
def lookupDriver (reg : Registry) (d : Nat) : Option DriverRec :=
  (reg.find? (fun e => e.1 == d)).map Prod.snd

/-! ## Fare estimate -/

/-- Modelled from the spec: base fare per vehicle class.  The spec fixes no
pricing constants, only that a created ride has a fare estimate greater
than zero; the base fares are therefore positive representative values. -/
def baseFare : VehicleType → Rat
  | VehicleType.car => 50
  | VehicleType.motorcycle => 20
  | VehicleType.auto => 30

/-- Modelled from the spec: per-distance rate per vehicle class (positive
representative values, see baseFare). -/
def perUnitRate : VehicleType → Rat
  | VehicleType.car => 15
  | VehicleType.motorcycle => 8
  | VehicleType.auto => 10

/-- Modelled from the spec: fare estimate computed from pickup and
destination.  The distance component uses the L1 distance of the
coordinates; the spec fixes no formula, only positivity. -/
def fareEstimate (pickup destination : Coord) (vt : VehicleType) : Rat :=
  baseFare vt +
    perUnitRate vt * (abs (destination.lat - pickup.lat) + abs (destination.lng - pickup.lng))

/-! ## Ride state machine operations (modelled from the spec, section 4.2) -/

/-- Modelled from the spec: requestRide validates both coordinates, computes
the fare estimate and creates the ride in the pending state; it fails with
InvalidLocation on a malformed coordinate. -/
def requestRide (rider : Nat) (pickup destination : Coord) (vt : VehicleType) :
    Except RideError Ride :=
  if validCoord pickup && validCoord destination then
    Except.ok
      { rider := rider
        driver := none
        pickup := pickup
        destination := destination
        vehicleType := vt
        status := RideStatus.pending
        fare := fareEstimate pickup destination vt
        otp := 0 }
  else
    Except.error RideError.InvalidLocation

/-- Modelled from the spec: acceptRide is legal only from pending and
requires the driver to be currently available; on success it sets the
status to accepted, records the driver reference and stores the generated
4-digit OTP (OTP generation is external randomness, passed as an
argument).  It fails with AlreadyAssigned if the ride is not pending and
with DriverUnavailable if the driver is not free. -/
def acceptRide (r : Ride) (d : Nat) (reg : Registry) (otp : Nat) :
    Except RideError Ride :=
  if r.status ≠ RideStatus.pending then
    Except.error RideError.AlreadyAssigned
  else
    match lookupDriver reg d with
    | none => Except.error RideError.NotFound
    | some rec₀ =>
      if rec₀.avail = Availability.available then
        Except.ok { r with status := RideStatus.accepted, driver := some d, otp := otp }
      else
        Except.error RideError.DriverUnavailable

/-- Modelled from the spec: startRide is legal only from accepted, only by
the assigned driver, only with a matching OTP; it fails with
InvalidTransition, NotAssignedDriver or OtpMismatch respectively. -/
def startRide (r : Ride) (d : Nat) (otp : Nat) : Except RideError Ride :=
  if r.status ≠ RideStatus.accepted then
    Except.error (RideError.InvalidTransition r.status RideStatus.ongoing)
  else if r.driver ≠ some d then
    Except.error RideError.NotAssignedDriver
  else if otp ≠ r.otp then
    Except.error RideError.OtpMismatch
  else
    Except.ok { r with status := RideStatus.ongoing }

/-- Modelled from the spec: release (section 4.4) moves a busy driver back
to available; releasing an already-available driver is a no-op, not an
error (the operation is total).  An offline driver is left offline. -/
def release (reg : Registry) (d : Nat) : Registry :=
  reg.map (fun e =>
    if e.1 = d ∧ e.2.avail = Availability.busy then
      (e.1, { e.2 with avail := Availability.available })
    else e)

/-- Modelled from the spec: endRide is legal only from ongoing and only by
the assigned driver; it sets the status to completed and releases the
driver to available. -/
def endRide (r : Ride) (d : Nat) (reg : Registry) :
    Except RideError (Ride × Registry) :=
  if r.status ≠ RideStatus.ongoing then
    Except.error (RideError.InvalidTransition r.status RideStatus.completed)
  else if r.driver ≠ some d then
    Except.error RideError.NotAssignedDriver
  else
    Except.ok ({ r with status := RideStatus.completed }, release reg d)

/-- Modelled from the spec: cancelRide is legal from pending or accepted and
releases the driver if one was assigned (unconditionally and idempotently,
section 5). -/
def cancelRide (r : Ride) (reg : Registry) : Except RideError (Ride × Registry) :=
  if r.status = RideStatus.pending ∨ r.status = RideStatus.accepted then
    Except.ok
      ({ r with status := RideStatus.cancelled },
        match r.driver with
        | some d => release reg d
        | none => reg)
  else
    Except.error (RideError.InvalidTransition r.status RideStatus.cancelled)

/-- The legal transition relation of the ride lifecycle (section 4.2):
pending to accepted, accepted to ongoing, ongoing to completed, and the
cancellation branches pending to cancelled and accepted to cancelled. -/
def legalStep : RideStatus → RideStatus → Bool
  | RideStatus.pending, RideStatus.accepted => true
  | RideStatus.accepted, RideStatus.ongoing => true
  | RideStatus.ongoing, RideStatus.completed => true
  | RideStatus.pending, RideStatus.cancelled => true
  | RideStatus.accepted, RideStatus.cancelled => true
  | _, _ => false

/-- A mutating ride operation (the driver-facing surface of the state
machine). -/
inductive RideOp
  | accept (d : Nat) (otp : Nat)
  | start (d : Nat) (otp : Nat)
  | finish (d : Nat)
  | cancel
deriving DecidableEq, Repr

/-- Apply one ride operation to a ride and the driver registry.  Each
operation is a single atomic unit (section 4.2); on an error the state is
unchanged (no new state is produced). -/
def applyOp (r : Ride) (reg : Registry) : RideOp → Except RideError (Ride × Registry)
  | RideOp.accept d otp => (acceptRide r d reg otp).map (fun r2 => (r2, reg))
  | RideOp.start d otp => (startRide r d otp).map (fun r2 => (r2, reg))
  | RideOp.finish d => endRide r d reg
  | RideOp.cancel => cancelRide r reg

/-- The ride state the system holds after a call: the new ride on success,
the unchanged input ride on failure. -/
def rideAfter (r : Ride) (res : Except RideError Ride) : Ride :=
  match res with
  | Except.ok r2 => r2
  | Except.error _ => r

/-! ## GeoIndex (modelled from the spec, sections 4.1 and 4.4) -/

/-- Squared Euclidean distance between two coordinates.  Comparing squared
distances orders candidates exactly as comparing true distances, and keeps
everything rational. -/
def sqDist (a b : Coord) : Rat :=
  (a.lat - b.lat) ^ 2 + (a.lng - b.lng) ^ 2

/-- Modelled from the spec: the GeoIndex candidate filter.  An entry
matches when the driver is flagged available, has the requested vehicle
class, lies within the query radius (compared on squared distances) and
has a heartbeat no older than the staleness window (the read-time filter
of section 4.4). -/
def geoMatch (p : Coord) (radius : Rat) (vt : VehicleType) (now window : Nat)
    (e : Nat × DriverRec) : Bool :=
  decide (e.2.avail = Availability.available) &&
  decide (e.2.vehicleType = vt) &&
  decide (sqDist e.2.loc p ≤ radius ^ 2) &&
  decide (now ≤ e.2.heartbeat + window)

/-- The GeoIndex candidate order: nearer first, ties on equal distance
broken by lower driver ID first (section 4.1). -/
def geoLe (p : Coord) (a b : Nat × DriverRec) : Prop :=
  sqDist a.2.loc p < sqDist b.2.loc p ∨
    (sqDist a.2.loc p = sqDist b.2.loc p ∧ a.1 ≤ b.1)

instance (p : Coord) : DecidableRel (geoLe p) := fun a b => by
  unfold geoLe; infer_instance

instance (p : Coord) : IsTotal (Nat × DriverRec) (geoLe p) where
  total a b := by
    unfold geoLe
    rcases lt_trichotomy (sqDist a.2.loc p) (sqDist b.2.loc p) with h | h | h
    · exact Or.inl (Or.inl h)
    · rcases Nat.le_total a.1 b.1 with h2 | h2
      · exact Or.inl (Or.inr ⟨h, h2⟩)
      · exact Or.inr (Or.inr ⟨h.symm, h2⟩)
    · exact Or.inr (Or.inl h)

instance (p : Coord) : IsTrans (Nat × DriverRec) (geoLe p) where
  trans a b c hab hbc := by
    unfold geoLe at hab hbc ⊢
    rcases hab with h1 | ⟨h1, h1n⟩
    · rcases hbc with h2 | ⟨h2, _⟩
      · exact Or.inl (h1.trans h2)
      · exact Or.inl (h2 ▸ h1)
    · rcases hbc with h2 | ⟨h2, h2n⟩
      · exact Or.inl (h1 ▸ h2)
      · exact Or.inr ⟨h1.trans h2, h1n.trans h2n⟩

/-- Modelled from the spec: the GeoIndex query, as the filtered registry
entries sorted nearest first with the lower-ID tie-break. -/
def geoQueryEntries (reg : Registry) (p : Coord) (radius : Rat)
    (vt : VehicleType) (now window : Nat) : List (Nat × DriverRec) :=
  (reg.filter (geoMatch p radius vt now window)).insertionSort (geoLe p)

/-- Modelled from the spec: query(point, radius, vehicleClass) returns the
ordered sequence of driver IDs (empty, not an error, when no driver
matches). -/
def geoQuery (reg : Registry) (p : Coord) (radius : Rat)
    (vt : VehicleType) (now window : Nat) : List Nat :=
  (geoQueryEntries reg p radius vt now window).map Prod.fst

/-! ## DispatchCoordinator (modelled from the spec, section 4.3) -/

/-- Modelled from the spec: setBusy, the atomic compare-and-swap claim of a
driver, moving available to busy; it fails when the driver is not
currently available (error taxonomy of section 7: DriverUnavailable) and
then leaves the registry unchanged. -/
def setBusy (reg : Registry) (d : Nat) : Except RideError Registry :=
  match lookupDriver reg d with
  | none => Except.error RideError.NotFound
  | some rec₀ =>
    if rec₀.avail = Availability.available then
      Except.ok (reg.map (fun e =>
        if e.1 = d then (e.1, { e.2 with avail := Availability.busy }) else e))
    else
      Except.error RideError.DriverUnavailable

/-- Whether an atomic claim of driver d against registry reg would
succeed. -/
def claimOk (reg : Registry) (d : Nat) : Bool :=
  match lookupDriver reg d with
  | some rec₀ => decide (rec₀.avail = Availability.available)
  | none => false

/-- Modelled from the spec: the candidate iteration of dispatch, step (3) to
(5).  Each candidate is claimed by the atomic compare-and-swap; the first
successful claim wins, marks the driver busy and accepts the ride; a
failed claim leaves the registry unchanged and the next candidate is
tried; with all candidates exhausted the result is NoDriverAvailable and
the ride is left pending. -/
def claimLoop (r : Ride) (reg : Registry) (otp : Nat) :
    List Nat → (Except RideError Nat) × Ride × Registry
  | [] => (Except.error RideError.NoDriverAvailable, r, reg)
  | d :: rest =>
    match setBusy reg d with
    | Except.error _ => claimLoop r reg otp rest
    | Except.ok reg2 =>
      (Except.ok d,
        { r with status := RideStatus.accepted, driver := some d, otp := otp },
        reg2)

/-- Modelled from the spec: dispatch(rideId).  Step (1) verifies the ride is
pending, step (2) queries the GeoIndex around the pickup point, steps (3)
to (5) are the claim loop.  The result carries the ride and registry the
system holds afterwards (unchanged inputs on failure). -/
def dispatch (r : Ride) (reg : Registry) (radius : Rat) (now window otp : Nat) :
    (Except RideError Nat) × Ride × Registry :=
  if r.status = RideStatus.pending then
    claimLoop r reg otp (geoQuery reg r.pickup radius r.vehicleType now window)
  else
    (Except.error RideError.AlreadyAssigned, r, reg)

/-! ## EventNotifier (modelled from the spec, section 4.5) -/

/-- Event kinds mirroring the ride transitions (the EVENTS.RIDE topics of
config/kafka in the sources: requested, accepted, started, completed,
cancelled). -/
inductive EventKind
  | requested
  | accepted
  | started
  | completed
  | cancelled
deriving DecidableEq, Repr

/-- The event kind a successful ride operation publishes. -/
def eventOf : RideOp → EventKind
  | RideOp.accept _ _ => EventKind.accepted
  | RideOp.start _ _ => EventKind.started
  | RideOp.finish _ => EventKind.completed
  | RideOp.cancel => EventKind.cancelled

/-- Modelled from the spec: notify(eventKind, ride) is a fire-and-forget
publish; delivered is recorded on the external bus log, a failed publish
leaves the log as it was, and in neither case does the outcome flow back
into the operation. -/
def notify (ev : EventKind) (delivered : Bool) (busLog : List EventKind) :
    List EventKind :=
  if delivered then busLog ++ [ev] else busLog

/-- Modelled from the spec: a ride operation followed by its best-effort
notification.  The publish outcome (the delivered flag, decided by the
external bus) only affects the bus log component. -/
def applyOpNotify (r : Ride) (reg : Registry) (op : RideOp)
    (busLog : List EventKind) (delivered : Bool) :
    Except RideError (Ride × Registry × List EventKind) :=
  match applyOp r reg op with
  | Except.error e => Except.error e
  | Except.ok (r2, reg2) => Except.ok (r2, reg2, notify (eventOf op) delivered busLog)

/-! ## Credential handling (embedded from the sources)

The user model, captain model, user service, user controller and captain
controller are present in the repository.  The fragment of JavaScript
semantics they exercise is embedded shallowly: values, identifier
resolution against the lexical scope (an unresolvable identifier raises a
ReferenceError), and thrown errors propagating through a handler that has
no try-catch. -/

/-- JavaScript values occurring in the embedded fragment. -/
inductive JsValue
  | vstr (s : String)
  | vundef
  | vlib
deriving DecidableEq, Repr

/-- JavaScript runtime errors occurring in the embedded fragment. -/
inductive JsErr
  | referenceError (name : String)
  | thrownError (msg : String)
deriving DecidableEq, Repr

/-- Resolve an identifier against a lexical scope; an unbound identifier
raises a ReferenceError, as in JavaScript strict evaluation of a bare
name. -/
def jsLookup (scope : List (String × JsValue)) (x : String) :
    Except JsErr JsValue :=
  match scope.find? (fun e => e.1 == x) with
  | some e => Except.ok e.2
  | none => Except.error (JsErr.referenceError x)

/-- An abstract, injective model of bcrypt.hash with a fixed salt round. -/
def bcryptHash (s : String) : String :=
  "bcrypt-hash of " ++ s

/-- Model of bcrypt.compare: the plaintext matches the stored value exactly
when the stored value is the bcrypt hash of the plaintext.  A non-string
argument (such as undefined) never matches. -/
def bcryptCompare (plain stored : JsValue) : Bool :=
  match plain, stored with
  | JsValue.vstr p, JsValue.vstr h => bcryptHash p == h
  | _, _ => false

/-- The module-level bindings of the captain model file (captain.model):
mongoose, bcrypt, jwt, captainSchema, captainModel.  No binding named
password exists at module level. -/
def captainModelScope : List (String × JsValue) :=
  [("mongoose", JsValue.vlib), ("bcrypt", JsValue.vlib), ("jwt", JsValue.vlib),
    ("captainSchema", JsValue.vlib), ("captainModel", JsValue.vlib)]

/-- Embeds captainSchema.methods.comparePassword from the captain model:
an async function with an EMPTY parameter list whose body returns
bcrypt.compare(password, this.password).  The call arguments bind nothing
because the declared parameter list is empty, so the identifier password
is resolved against the module scope alone.  thisPassword is the password
field of the receiver document. -/
def captainComparePassword (thisPassword : JsValue) (_args : List JsValue) :
    Except JsErr Bool :=
  let scope := captainModelScope
  match jsLookup scope "password" with
  | Except.error e => Except.error e
  | Except.ok v => Except.ok (bcryptCompare v thisPassword)

/-- A stored captain document (the fields the login path reads). -/
structure CaptainDoc where
  email : String
  passwordHash : String
deriving DecidableEq, Repr

/-- Embeds captainModel.findOne({ email }) as used by the captain login
controller: the query does NOT add select with +password, and the schema
declares the password field with select false, so the returned document
carries no password value (this.password is undefined). -/
def captainFindOne (db : List CaptainDoc) (email : String) :
    Option (CaptainDoc × JsValue) :=
  (db.find? (fun c => c.email == email)).map (fun c => (c, JsValue.vundef))

/-- Outcome of a login request as the controller reports it. -/
inductive LoginOutcome
  | unauthorized
  | success (token : String)
deriving DecidableEq, Repr

/-- Embeds the captain login controller (loginUser in the captain
controller): find the captain by email (401 when absent), then call
captain.comparePassword(password); the handler has no try-catch, so an
error thrown there propagates out and no response is produced on that
path. -/
def captainLogin (db : List CaptainDoc) (email password : String) :
    Except JsErr LoginOutcome :=
  match captainFindOne db email with
  | none => Except.ok LoginOutcome.unauthorized
  | some (_, thisPassword) =>
    match captainComparePassword thisPassword [JsValue.vstr password] with
    | Except.error e => Except.error e
    | Except.ok isMatch =>
      if isMatch then Except.ok (LoginOutcome.success "jwt-token")
      else Except.ok LoginOutcome.unauthorized

/-- The module-level bindings of the user model file (userModel): mongoose,
bcrypt, jwt, userSchema, userModel.  No binding named password exists at
module level. -/
def userModelScope : List (String × JsValue) :=
  [("mongoose", JsValue.vlib), ("bcrypt", JsValue.vlib), ("jwt", JsValue.vlib),
    ("userSchema", JsValue.vlib), ("userModel", JsValue.vlib)]

/-- Embeds userSchema.methods.hashPassword from the user model: an async
function with an EMPTY parameter list whose body returns
bcrypt.hash(password, 18).  The identifier password is resolved against
the module scope alone and the call arguments bind nothing. -/
def userHashPassword (_thisPassword : JsValue) (_args : List JsValue) :
    Except JsErr JsValue :=
  let scope := userModelScope
  match jsLookup scope "password" with
  | Except.error e => Except.error e
  | Except.ok v =>
    match v with
    | JsValue.vstr s => Except.ok (JsValue.vstr (bcryptHash s))
    | _ => Except.ok JsValue.vundef

/-- A stored user document as the user service persists it. -/
structure UserDoc where
  firstname : String
  lastname : String
  email : String
  password : String
deriving DecidableEq, Repr

/-- Embeds createUser from the user service: it throws when any field is
missing (an empty string is falsy in JavaScript), otherwise constructs the
document with the password EXACTLY as supplied and saves it (the user
model has no pre-save hashing hook), returning the document and the
database after the save. -/
def createUser (db : List UserDoc) (firstname lastname email password : String) :
    Except JsErr (UserDoc × List UserDoc) :=
  if firstname = "" ∨ lastname = "" ∨ email = "" ∨ password = "" then
    Except.error (JsErr.thrownError "All fields must be required!")
  else
    let u : UserDoc :=
      { firstname := firstname, lastname := lastname, email := email,
        password := password }
    Except.ok (u, db ++ [u])

/-- Outcome of a user registration request as the controller reports it. -/
inductive RegisterOutcome
  | alreadyRegistered
  | created (token : String)
deriving DecidableEq, Repr

/-- Embeds registerUser from the user controller: after validation it
rejects an existing email, calls userService.createUser (which performs
the first save), then calls user.hashPassword(password) intending to hash
and re-save.  The pair carries the response alongside the database state
the run leaves behind, since the first save persists even when a later
step throws (the handler has no try-catch). -/
def registerUser (db : List UserDoc) (firstname lastname email password : String) :
    (Except JsErr RegisterOutcome) × List UserDoc :=
  match db.find? (fun u => u.email == email) with
  | some _ => (Except.ok RegisterOutcome.alreadyRegistered, db)
  | none =>
    match createUser db firstname lastname email password with
    | Except.error e => (Except.error e, db)
    | Except.ok (u, db1) =>
      match userHashPassword (JsValue.vstr u.password) [JsValue.vstr password] with
      | Except.error e => (Except.error e, db1)
      | Except.ok hashed =>
        match hashed with
        | JsValue.vstr h =>
          (Except.ok (RegisterOutcome.created "jwt-token"),
            (db1.dropLast) ++ [{ u with password := h }])
        | _ => (Except.ok (RegisterOutcome.created "jwt-token"), db1)

/-! ## Concrete fixtures for witnesses and counterexamples -/

/-- A valid coordinate used by the fixtures. -/
def coordA : Coord := { lat := 0, lng := 0 }

/-- A second valid coordinate used by the fixtures. -/
def coordB : Coord := { lat := 1, lng := 1 }

/-- An available car driver record located at coordA. -/
def drvAvail : DriverRec :=
  { loc := coordA, avail := Availability.available,
    vehicleType := VehicleType.car, heartbeat := 100 }

/-- A busy car driver record located at coordA. -/
def drvBusy : DriverRec :=
  { loc := coordA, avail := Availability.busy,
    vehicleType := VehicleType.car, heartbeat := 100 }

/-- A registry with two available drivers. -/
def regTwoAvail : Registry := [(1, drvAvail), (2, drvAvail)]

/-- A registry with two busy drivers. -/
def regAllBusy : Registry := [(1, drvBusy), (2, drvBusy)]

/-- A registry with one available driver, ID 3. -/
def regAvail3 : Registry := [(3, drvAvail)]

/-- A pending ride fixture. -/
def ridePending : Ride :=
  { rider := 10, driver := none, pickup := coordA, destination := coordB,
    vehicleType := VehicleType.car, status := RideStatus.pending,
    fare := 80, otp := 0 }

/-- An accepted ride fixture, assigned to driver 5 with OTP 1234. -/
def rideAccepted : Ride :=
  { ridePending with status := RideStatus.accepted, driver := some 5, otp := 1234 }

/-- An ongoing ride fixture, assigned to driver 5. -/
def rideOngoing : Ride :=
  { rideAccepted with status := RideStatus.ongoing }

/-- A completed ride fixture, assigned to driver 5. -/
def rideCompleted : Ride :=
  { rideOngoing with status := RideStatus.completed }

/-- A captain database with one registered captain. -/
def dbCaptain : List CaptainDoc :=
  [{ email := "cap@example.com", passwordHash := "stored-bcrypt-hash" }]

/-- The registered captain of dbCaptain. -/
def capDoc : CaptainDoc :=
  { email := "cap@example.com", passwordHash := "stored-bcrypt-hash" }

/-! ## Theorems -/

/-- The fare estimate is strictly positive for every pair of coordinates
and every vehicle class. -/
theorem fareEstimate_pos (p q : Coord) (vt : VehicleType) :
    0 < fareEstimate p q vt := by
  have h1 : 0 ≤ abs (q.lat - p.lat) := abs_nonneg _
  have h2 : 0 ≤ abs (q.lng - p.lng) := abs_nonneg _
  cases vt <;> simp only [fareEstimate, baseFare, perUnitRate] <;> nlinarith

/-- C3: requestRide with pickup and destination inside the coordinate
ranges creates a ride with status pending and a fare estimate strictly
greater than 0; with any coordinate outside the ranges it fails with
InvalidLocation. -/
theorem C3_requestRide_validation (rider : Nat) (pickup destination : Coord)
    (vt : VehicleType) :
    (validCoord pickup = true → validCoord destination = true →
      ∃ ride, requestRide rider pickup destination vt = Except.ok ride ∧
        ride.status = RideStatus.pending ∧ 0 < ride.fare) ∧
    (validCoord pickup = false ∨ validCoord destination = false →
      requestRide rider pickup destination vt = Except.error RideError.InvalidLocation) := by
  constructor
  · intro h1 h2
    have hc : (validCoord pickup && validCoord destination) = true := by
      rw [h1, h2]; rfl
    unfold requestRide
    rw [hc, if_pos rfl]
    exact ⟨_, rfl, rfl, fareEstimate_pos pickup destination vt⟩
  · intro h
    rcases h with h | h <;> simp [requestRide, h]

/-- C3 witness: an instance of the spec scenario with pickup near
(40, -73) and destination near (41, -74) (integer-valued rationals, which
the kernel evaluates), vehicle class car. -/
theorem C3_requestRide_validation_witness :
    ∃ ride, requestRide 10 { lat := 40, lng := -73 }
        { lat := 41, lng := -74 } VehicleType.car = Except.ok ride ∧
      ride.status = RideStatus.pending ∧ 0 < ride.fare :=
  (C3_requestRide_validation 10 { lat := 40, lng := -73 }
      { lat := 41, lng := -74 } VehicleType.car).1 (by decide) (by decide)

/-- C5: on an accepted ride, a startRide call with a non-matching OTP never
changes the ride status, and when the caller is the assigned driver the
failure is OtpMismatch.  (The order of the precondition checks is not
fixed by the spec; a caller that is not the assigned driver fails the
ownership check as NotAssignedDriver, equally without a status change.) -/
theorem C5_startRide_wrong_otp (r : Ride) (d otp : Nat)
    (hacc : r.status = RideStatus.accepted) (hne : otp ≠ r.otp) :
    (rideAfter r (startRide r d otp)).status = r.status ∧
    (r.driver = some d → startRide r d otp = Except.error RideError.OtpMismatch) := by
  constructor
  · by_cases hd : r.driver = some d
    · simp [startRide, rideAfter, hacc, hd, hne]
    · simp [startRide, rideAfter, hacc, hd]
  · intro hd
    simp [startRide, hacc, hd, hne]

/-- C5 witness: the invalid-OTP test of the ride tests, supplied OTP 9999
against stored OTP 1234 on an accepted ride. -/
theorem C5_startRide_wrong_otp_witness :
    (rideAfter rideAccepted (startRide rideAccepted 5 9999)).status =
        rideAccepted.status ∧
    (rideAccepted.driver = some 5 →
      startRide rideAccepted 5 9999 = Except.error RideError.OtpMismatch) :=
  C5_startRide_wrong_otp rideAccepted 5 9999 (by decide) (by decide)

/-- C7: release is idempotent: when every registry entry of the driver is
already flagged available, release returns the registry unchanged (and it
is a total operation, so it cannot fail). -/
theorem C7_release_idempotent (reg : Registry) (d : Nat)
    (h : ∀ e ∈ reg, e.1 = d → e.2.avail = Availability.available) :
    release reg d = reg := by
  induction reg with
  | nil => rfl
  | cons e rest ih =>
    have he : ¬(e.1 = d ∧ e.2.avail = Availability.busy) := by
      rintro ⟨hd, hb⟩
      have := h e (List.mem_cons_self e rest) hd
      rw [this] at hb
      exact absurd hb (by decide)
    have hrest : release rest d = rest :=
      ih (fun x hx hxd => h x (List.mem_cons_of_mem e hx) hxd)
    simp only [release] at hrest ⊢
    rw [List.map_cons, if_neg he, hrest]

/-- C7 witness: releasing driver 3, already available in its registry,
changes nothing. -/
theorem C7_release_idempotent_witness : release regAvail3 3 = regAvail3 :=
  C7_release_idempotent regAvail3 3 (by decide)

/-- C8: the publish outcome of the best-effort notification influences
neither whether the operation reports success, nor the resulting ride and
driver registry, and every failure of the combined operation is a failure
of the state transition itself, never of the publish. -/
theorem C8_notify_decoupled (r : Ride) (reg : Registry) (op : RideOp)
    (busLog : List EventKind) (out1 out2 : Bool) :
    ((applyOpNotify r reg op busLog out1).isOk =
        (applyOpNotify r reg op busLog out2).isOk) ∧
    (∀ s1 s2, applyOpNotify r reg op busLog out1 = Except.ok s1 →
        applyOpNotify r reg op busLog out2 = Except.ok s2 →
        s1.1 = s2.1 ∧ s1.2.1 = s2.2.1) ∧
    (∀ e, applyOpNotify r reg op busLog out1 = Except.error e ↔
        applyOp r reg op = Except.error e) := by
  cases hop : applyOp r reg op with
  | error e =>
    refine ⟨by simp [applyOpNotify, hop], ?_, by simp [applyOpNotify, hop]⟩
    intro s1 s2 h1 h2
    simp [applyOpNotify, hop] at h1
  | ok s =>
    refine ⟨by simp [applyOpNotify, hop, Except.toBool], ?_,
      by simp [applyOpNotify, hop]⟩
    intro s1 s2 h1 h2
    simp [applyOpNotify, hop] at h1 h2
    rw [← h1, ← h2]
    exact ⟨rfl, rfl⟩

/-- C8 witness: completing an ongoing ride with a delivered publish and
with a failed publish yields the same ride and registry state and the same
success report. -/
theorem C8_notify_decoupled_witness :
    ((applyOpNotify rideOngoing regAllBusy (RideOp.finish 5) [] true).isOk =
        (applyOpNotify rideOngoing regAllBusy (RideOp.finish 5) [] false).isOk) :=
  (C8_notify_decoupled rideOngoing regAllBusy (RideOp.finish 5) [] true false).1

/-- On a pending ride with an available driver, acceptRide succeeds and
produces the accepted ride assigned to that driver. -/
theorem acceptRide_ok_of (r : Ride) (d : Nat) (reg : Registry) (otp : Nat)
    (hp : r.status = RideStatus.pending) (h : claimOk reg d = true) :
    acceptRide r d reg otp =
      Except.ok { r with status := RideStatus.accepted, driver := some d, otp := otp } := by
  unfold claimOk at h
  unfold acceptRide
  rw [if_neg (by simp [hp])]
  cases hl : lookupDriver reg d with
  | none => rw [hl] at h; simp at h
  | some rec₀ =>
    rw [hl] at h
    have ha : rec₀.avail = Availability.available := by simpa using h
    simp [ha]

/-- On a ride that is not pending, acceptRide fails with AlreadyAssigned. -/
theorem acceptRide_nonpending (r : Ride) (d : Nat) (reg : Registry) (otp : Nat)
    (h : r.status ≠ RideStatus.pending) :
    acceptRide r d reg otp = Except.error RideError.AlreadyAssigned := by
  simp [acceptRide, h]

/-- C1: two racing acceptRide calls on the same pending ride, each an
atomic unit, are equivalent to the two sequential interleavings; in each
interleaving the first call succeeds and the second fails with
AlreadyAssigned, so exactly one of the pair succeeds — never both, never
neither.  (Both drivers are assumed available, the success precondition of
a single call.) -/
theorem C1_accept_race (r : Ride) (reg : Registry) (d1 d2 o1 o2 : Nat)
    (hp : r.status = RideStatus.pending)
    (h1 : claimOk reg d1 = true) (h2 : claimOk reg d2 = true) :
    (∃ r2, acceptRide r d1 reg o1 = Except.ok r2 ∧
      acceptRide r2 d2 reg o2 = Except.error RideError.AlreadyAssigned) ∧
    (∃ r2, acceptRide r d2 reg o2 = Except.ok r2 ∧
      acceptRide r2 d1 reg o1 = Except.error RideError.AlreadyAssigned) := by
  constructor
  · exact ⟨_, acceptRide_ok_of r d1 reg o1 hp h1,
      acceptRide_nonpending _ d2 reg o2 (by simp)⟩
  · exact ⟨_, acceptRide_ok_of r d2 reg o2 hp h2,
      acceptRide_nonpending _ d1 reg o1 (by simp)⟩

/-- C1 witness: drivers 1 and 2, both available, race to accept the
pending fixture ride. -/
theorem C1_accept_race_witness :
    (∃ r2, acceptRide ridePending 1 regTwoAvail 1111 = Except.ok r2 ∧
      acceptRide r2 2 regTwoAvail 2222 = Except.error RideError.AlreadyAssigned) ∧
    (∃ r2, acceptRide ridePending 2 regTwoAvail 2222 = Except.ok r2 ∧
      acceptRide r2 1 regTwoAvail 1111 = Except.error RideError.AlreadyAssigned) :=
  C1_accept_race ridePending regTwoAvail 1 2 1111 2222 rfl (by decide) (by decide)

/-- A successful acceptRide starts from pending and ends accepted. -/
theorem acceptRide_ok_inv {r : Ride} {d : Nat} {reg : Registry} {otp : Nat}
    {r2 : Ride} (h : acceptRide r d reg otp = Except.ok r2) :
    r.status = RideStatus.pending ∧ r2.status = RideStatus.accepted := by
  unfold acceptRide at h
  split at h
  · exact absurd h (by simp)
  next hp =>
    split at h
    · exact absurd h (by simp)
    next rec₀ heq =>
      split at h
      · injection h with h
        exact ⟨not_not.mp hp, by rw [← h]⟩
      · exact absurd h (by simp)

/-- A successful startRide starts from accepted and ends ongoing. -/
theorem startRide_ok_inv {r : Ride} {d otp : Nat} {r2 : Ride}
    (h : startRide r d otp = Except.ok r2) :
    r.status = RideStatus.accepted ∧ r2.status = RideStatus.ongoing := by
  unfold startRide at h
  split at h
  · exact absurd h (by simp)
  next hacc =>
    split at h
    · exact absurd h (by simp)
    next =>
      split at h
      · exact absurd h (by simp)
      next =>
        injection h with h
        exact ⟨not_not.mp hacc, by rw [← h]⟩

/-- A successful endRide starts from ongoing and ends completed. -/
theorem endRide_ok_inv {r : Ride} {d : Nat} {reg : Registry} {r2 : Ride}
    {reg2 : Registry} (h : endRide r d reg = Except.ok (r2, reg2)) :
    r.status = RideStatus.ongoing ∧ r2.status = RideStatus.completed := by
  unfold endRide at h
  split at h
  · exact absurd h (by simp)
  next hon =>
    split at h
    · exact absurd h (by simp)
    next =>
      injection h with h
      injection h with h1 h2
      exact ⟨not_not.mp hon, by rw [← h1]⟩

/-- A successful cancelRide starts from pending or accepted and ends
cancelled. -/
theorem cancelRide_ok_inv {r : Ride} {reg : Registry} {r2 : Ride}
    {reg2 : Registry} (h : cancelRide r reg = Except.ok (r2, reg2)) :
    (r.status = RideStatus.pending ∨ r.status = RideStatus.accepted) ∧
      r2.status = RideStatus.cancelled := by
  unfold cancelRide at h
  split at h
  next hc =>
    injection h with h
    injection h with h1 h2
    exact ⟨hc, by rw [← h1]⟩
  · exact absurd h (by simp)

/-- C2 (amended): every successful ride operation performs a transition of
the legal lifecycle graph (pending to accepted to ongoing to completed,
with cancellation from pending or accepted), so the statuses a ride takes
over time follow that graph; every operation attempting another
transition fails — leaving the status unchanged, since no new state is
produced — with InvalidTransition (carrying current and attempted states)
for startRide, endRide and cancelRide, and with AlreadyAssigned for
acceptRide on a non-pending ride. -/
theorem C2_lifecycle_transitions (r : Ride) (reg : Registry) (op : RideOp) :
    (∀ r2 reg2, applyOp r reg op = Except.ok (r2, reg2) →
      legalStep r.status r2.status = true) ∧
    (∀ d otp, op = RideOp.accept d otp → r.status ≠ RideStatus.pending →
      applyOp r reg op = Except.error RideError.AlreadyAssigned) ∧
    (∀ d otp, op = RideOp.start d otp → r.status ≠ RideStatus.accepted →
      applyOp r reg op =
        Except.error (RideError.InvalidTransition r.status RideStatus.ongoing)) ∧
    (∀ d, op = RideOp.finish d → r.status ≠ RideStatus.ongoing →
      applyOp r reg op =
        Except.error (RideError.InvalidTransition r.status RideStatus.completed)) ∧
    (op = RideOp.cancel → r.status ≠ RideStatus.pending →
      r.status ≠ RideStatus.accepted →
      applyOp r reg op =
        Except.error (RideError.InvalidTransition r.status RideStatus.cancelled)) := by
  refine ⟨?_, ?_, ?_, ?_, ?_⟩
  · intro r2 reg2 h
    cases op with
    | accept d otp =>
      cases hacc : acceptRide r d reg otp with
      | error e => simp [applyOp, hacc, Except.map] at h
      | ok r3 =>
        simp [applyOp, hacc, Except.map] at h
        obtain ⟨h1, h2⟩ := acceptRide_ok_inv hacc
        rw [h1, ← h.1, h2]
        rfl
    | start d otp =>
      cases hst : startRide r d otp with
      | error e => simp [applyOp, hst, Except.map] at h
      | ok r3 =>
        simp [applyOp, hst, Except.map] at h
        obtain ⟨h1, h2⟩ := startRide_ok_inv hst
        rw [h1, ← h.1, h2]
        rfl
    | finish d =>
      have h2 := @endRide_ok_inv r d reg r2 reg2 (by simpa [applyOp] using h)
      rw [h2.1, h2.2]
      rfl
    | cancel =>
      have h2 := @cancelRide_ok_inv r reg r2 reg2 (by simpa [applyOp] using h)
      rcases h2.1 with h1 | h1 <;> rw [h1, h2.2] <;> rfl
  · rintro d otp rfl hne
    simp [applyOp, acceptRide, hne, Except.map]
  · rintro d otp rfl hne
    simp [applyOp, startRide, hne, Except.map]
  · rintro d rfl hne
    simp [applyOp, endRide, hne]
  · rintro rfl hn1 hn2
    simp [applyOp, cancelRide, hn1, hn2]

/-- C2 counterexample: the claim predicts that EVERY operation attempting
an illegal transition fails with InvalidTransition, but acceptRide on a
ride that is no longer pending fails with AlreadyAssigned (as the spec
contract for acceptRide itself prescribes), which is not an
InvalidTransition error. -/
theorem C2_lifecycle_transitions_counterexample :
    applyOp rideAccepted regTwoAvail (RideOp.accept 2 9999) =
      Except.error RideError.AlreadyAssigned ∧
    RideError.AlreadyAssigned ≠
      RideError.InvalidTransition RideStatus.accepted RideStatus.accepted := by
  exact ⟨rfl, by decide⟩

/-- C2 witness: the endRide-twice scenario.  The first endRide on the
ongoing fixture ride succeeds and completes it; the second endRide, now on
a completed ride, fails with InvalidTransition. -/
theorem C2_lifecycle_transitions_witness :
    endRide rideOngoing 5 regAllBusy =
      Except.ok ({ rideOngoing with status := RideStatus.completed },
        release regAllBusy 5) ∧
    applyOp rideCompleted regAllBusy (RideOp.finish 5) =
      Except.error
        (RideError.InvalidTransition RideStatus.completed RideStatus.completed) :=
  ⟨rfl,
    (C2_lifecycle_transitions rideCompleted regAllBusy (RideOp.finish 5)).2.2.2.1
      5 rfl (by decide)⟩

/-- A claim that would succeed: setBusy on an available driver returns the
registry with that driver marked busy. -/
theorem setBusy_ok_of (reg : Registry) (d : Nat) (h : claimOk reg d = true) :
    setBusy reg d = Except.ok (reg.map (fun e =>
      if e.1 = d then (e.1, { e.2 with avail := Availability.busy }) else e)) := by
  unfold claimOk at h
  unfold setBusy
  cases hl : lookupDriver reg d with
  | none => rw [hl] at h; simp at h
  | some rec₀ =>
    rw [hl] at h
    have ha : rec₀.avail = Availability.available := by simpa using h
    simp [ha]

/-- A claim that would fail: setBusy on a driver that is not currently
available returns an error and no new registry. -/
theorem setBusy_err_of (reg : Registry) (d : Nat) (h : claimOk reg d = false) :
    ∃ e, setBusy reg d = Except.error e := by
  unfold claimOk at h
  unfold setBusy
  cases hl : lookupDriver reg d with
  | none => exact ⟨_, rfl⟩
  | some rec₀ =>
    rw [hl] at h
    have ha : ¬rec₀.avail = Availability.available := by simpa using h
    refine ⟨RideError.DriverUnavailable, ?_⟩
    simp [ha]

/-- When the claim of every candidate fails, the claim loop returns
NoDriverAvailable with the ride and registry untouched. -/
theorem claimLoop_all_fail (r : Ride) (reg : Registry) (otp : Nat) :
    ∀ l : List Nat, (∀ d ∈ l, claimOk reg d = false) →
      claimLoop r reg otp l = (Except.error RideError.NoDriverAvailable, r, reg) := by
  intro l
  induction l with
  | nil => intro _; rfl
  | cons a rest ih =>
    intro h
    obtain ⟨e, he⟩ := setBusy_err_of reg a (h a (List.mem_cons_self a rest))
    simp only [claimLoop, he]
    exact ih (fun x hx => h x (List.mem_cons_of_mem a hx))

/-- The claim loop returns the first candidate whose claim succeeds. -/
theorem claimLoop_first (r : Ride) (reg : Registry) (otp : Nat) :
    ∀ l : List Nat, ∀ d, l.find? (fun x => claimOk reg x) = some d →
      (claimLoop r reg otp l).1 = Except.ok d := by
  intro l
  induction l with
  | nil => intro d h; simp at h
  | cons a rest ih =>
    intro d h
    cases hca : claimOk reg a with
    | true =>
      rw [List.find?_cons_of_pos _ hca] at h
      injection h with h
      subst h
      simp only [claimLoop, setBusy_ok_of reg a hca]
    | false =>
      obtain ⟨e, he⟩ := setBusy_err_of reg a hca
      rw [List.find?_cons_of_neg _ (by simp [hca])] at h
      simp only [claimLoop, he]
      exact ih d h

/-- C4: dispatch on a pending ride.  When the atomic claim of every
GeoIndex candidate fails — in particular when the candidate list is
empty — dispatch returns NoDriverAvailable and the ride is still pending
(ride and registry are returned untouched, ready for a caller-controlled
retry); otherwise dispatch returns the ID of the single driver whose
claim succeeded, i.e. the first candidate whose compare-and-swap went
through. -/
theorem C4_dispatch_outcome (r : Ride) (reg : Registry) (radius : Rat)
    (now window otp : Nat) (hp : r.status = RideStatus.pending) :
    ((∀ d ∈ geoQuery reg r.pickup radius r.vehicleType now window,
        claimOk reg d = false) →
      dispatch r reg radius now window otp =
        (Except.error RideError.NoDriverAvailable, r, reg) ∧
      (dispatch r reg radius now window otp).2.1.status = RideStatus.pending) ∧
    (∀ d, (geoQuery reg r.pickup radius r.vehicleType now window).find?
        (fun x => claimOk reg x) = some d →
      (dispatch r reg radius now window otp).1 = Except.ok d) := by
  constructor
  · intro h
    have hd : dispatch r reg radius now window otp =
        (Except.error RideError.NoDriverAvailable, r, reg) := by
      unfold dispatch
      rw [if_pos hp]
      exact claimLoop_all_fail r reg otp _ h
    exact ⟨hd, by rw [hd]; exact hp⟩
  · intro d h
    unfold dispatch
    rw [if_pos hp]
    exact claimLoop_first r reg otp _ d h

/-- C4 witness: a registry whose drivers are all busy yields no GeoIndex
candidates, and dispatch leaves the fixture ride pending with
NoDriverAvailable. -/
theorem C4_dispatch_outcome_witness :
    dispatch ridePending regAllBusy 100 100 60 4321 =
      (Except.error RideError.NoDriverAvailable, ridePending, regAllBusy) ∧
    (dispatch ridePending regAllBusy 100 100 60 4321).2.1.status =
      RideStatus.pending :=
  (C4_dispatch_outcome ridePending regAllBusy 100 100 60 4321 rfl).1 (by decide)

/-- C6: GeoIndex.query yields the empty sequence — not an error — when no
available driver of the requested vehicle class lies within the radius,
and its result is always ordered nearest first, any two candidates at
equal distance ordered with the lower driver ID first.  The strict
ordering assumes the registry keys are distinct, which the registry
invariant (one record per driver ID) provides. -/
theorem C6_geoQuery_order (reg : Registry) (p : Coord) (radius : Rat)
    (vt : VehicleType) (now window : Nat)
    (hnd : (reg.map Prod.fst).Nodup) :
    ((∀ e ∈ reg, ¬(e.2.avail = Availability.available ∧ e.2.vehicleType = vt ∧
        sqDist e.2.loc p ≤ radius ^ 2)) →
      geoQuery reg p radius vt now window = []) ∧
    List.Pairwise (fun a b => sqDist a.2.loc p < sqDist b.2.loc p ∨
        (sqDist a.2.loc p = sqDist b.2.loc p ∧ a.1 < b.1))
      (geoQueryEntries reg p radius vt now window) := by
  constructor
  · intro h
    have hf : reg.filter (geoMatch p radius vt now window) = [] := by
      rw [List.filter_eq_nil_iff]
      intro a ha hm
      simp only [geoMatch, Bool.and_eq_true, decide_eq_true_eq] at hm
      exact h a ha ⟨hm.1.1.1, hm.1.1.2, hm.1.2⟩
    simp [geoQuery, geoQueryEntries, hf]
  · have hs : List.Sorted (geoLe p) (geoQueryEntries reg p radius vt now window) :=
      List.sorted_insertionSort (geoLe p) _
    have hperm : (geoQueryEntries reg p radius vt now window).Perm
        (reg.filter (geoMatch p radius vt now window)) :=
      List.perm_insertionSort _ _
    have hsubl : (reg.filter (geoMatch p radius vt now window)).Sublist reg :=
      List.filter_sublist reg
    have hnd2 : ((reg.filter (geoMatch p radius vt now window)).map Prod.fst).Nodup :=
      hnd.sublist (hsubl.map Prod.fst)
    have hnd3 : ((geoQueryEntries reg p radius vt now window).map Prod.fst).Nodup :=
      ((hperm.map Prod.fst).nodup_iff).mpr hnd2
    have hne : List.Pairwise (fun a b => a.1 ≠ b.1)
        (geoQueryEntries reg p radius vt now window) :=
      (List.pairwise_map).mp hnd3
    refine (List.pairwise_and_iff.mpr ⟨hs, hne⟩).imp ?_
    intro a b hab
    rcases hab with ⟨hlt | ⟨heq, hle⟩, hne2⟩
    · exact Or.inl hlt
    · exact Or.inr ⟨heq, Nat.lt_of_le_of_ne hle hne2⟩

/-- C6 witness: the two-available-driver registry with distinct IDs. -/
theorem C6_geoQuery_order_witness :
    ((∀ e ∈ regTwoAvail, ¬(e.2.avail = Availability.available ∧
        e.2.vehicleType = VehicleType.car ∧
        sqDist e.2.loc coordA ≤ (100 : Rat) ^ 2)) →
      geoQuery regTwoAvail coordA 100 VehicleType.car 100 60 = []) ∧
    List.Pairwise (fun a b => sqDist a.2.loc coordA < sqDist b.2.loc coordA ∨
        (sqDist a.2.loc coordA = sqDist b.2.loc coordA ∧ a.1 < b.1))
      (geoQueryEntries regTwoAvail coordA 100 VehicleType.car 100 60) :=
  C6_geoQuery_order regTwoAvail coordA 100 VehicleType.car 100 60 (by decide)

/-- C9: captainSchema.methods.comparePassword declares no parameter, so the
identifier password in its body is unbound (the captain model module binds
only mongoose, bcrypt, jwt, captainSchema, captainModel) and every call
raises a ReferenceError; moreover the login query does not select the
stored hash, so this.password would be undefined even if the identifier
resolved.  Consequently a captain login for a registered email always
propagates the error and never returns a success response through the
password-match path. -/
theorem C9_captain_compare_password_unbound (db : List CaptainDoc)
    (email password : String) (c : CaptainDoc)
    (hreg : db.find? (fun x => x.email == email) = some c) :
    (∀ thisP args, captainComparePassword thisP args =
      Except.error (JsErr.referenceError "password")) ∧
    captainLogin db email password =
      Except.error (JsErr.referenceError "password") ∧
    ∀ t, captainLogin db email password ≠ Except.ok (LoginOutcome.success t) := by
  have hcp : ∀ thisP args, captainComparePassword thisP args =
      Except.error (JsErr.referenceError "password") := fun _ _ => rfl
  have hlog : captainLogin db email password =
      Except.error (JsErr.referenceError "password") := by
    simp [captainLogin, captainFindOne, hreg, hcp]
  refine ⟨hcp, hlog, ?_⟩
  intro t
  rw [hlog]
  simp

/-- C9 witness: the registered fixture captain attempting to log in. -/
theorem C9_captain_compare_password_unbound_witness :
    (∀ thisP args, captainComparePassword thisP args =
      Except.error (JsErr.referenceError "password")) ∧
    captainLogin dbCaptain "cap@example.com" "secret123" =
      Except.error (JsErr.referenceError "password") ∧
    ∀ t, captainLogin dbCaptain "cap@example.com" "secret123" ≠
      Except.ok (LoginOutcome.success t) :=
  C9_captain_compare_password_unbound dbCaptain "cap@example.com" "secret123"
    capDoc (by decide)

/-- C10: when user registration passes validation and the email is fresh,
createUser succeeds and its save — the first persisted save — stores the
password exactly as the caller supplied it, unhashed (the user model has
no pre-save hashing hook); hashing is attempted only afterwards, through
userSchema.methods.hashPassword, whose body references the unbound
identifier password and therefore raises a ReferenceError, which the
controller propagates — leaving the plaintext password in the database. -/
theorem C10_register_first_save_plaintext (db : List UserDoc)
    (fn ln email pw : String)
    (hfn : fn ≠ "") (hln : ln ≠ "") (hem : email ≠ "") (hpw : pw ≠ "")
    (hfresh : db.find? (fun u => u.email == email) = none) :
    (∀ thisP args, userHashPassword thisP args =
      Except.error (JsErr.referenceError "password")) ∧
    (registerUser db fn ln email pw).2 =
      db ++ [{ firstname := fn, lastname := ln, email := email, password := pw }] ∧
    (registerUser db fn ln email pw).1 =
      Except.error (JsErr.referenceError "password") := by
  have hhp : ∀ thisP args, userHashPassword thisP args =
      Except.error (JsErr.referenceError "password") := fun _ _ => rfl
  have hcu : createUser db fn ln email pw =
      Except.ok ({ firstname := fn, lastname := ln, email := email, password := pw },
        db ++ [{ firstname := fn, lastname := ln, email := email, password := pw }]) := by
    unfold createUser
    rw [if_neg (by simp [hfn, hln, hem, hpw])]
  refine ⟨hhp, ?_, ?_⟩ <;> simp [registerUser, hfresh, hcu, hhp]

/-- C10 witness: registering a fresh user on an empty database persists
the supplied plaintext password and then raises from hashPassword. -/
theorem C10_register_first_save_plaintext_witness :
    (∀ thisP args, userHashPassword thisP args =
      Except.error (JsErr.referenceError "password")) ∧
    (registerUser [] "Amit" "Kumar" "amit@example.com" "password123").2 =
      [] ++ [{ firstname := "Amit", lastname := "Kumar",
               email := "amit@example.com", password := "password123" }] ∧
    (registerUser [] "Amit" "Kumar" "amit@example.com" "password123").1 =
      Except.error (JsErr.referenceError "password") :=
  C10_register_first_save_plaintext [] "Amit" "Kumar" "amit@example.com"
    "password123" (by decide) (by decide) (by decide) (by decide) (by decide)
